import Mathlib

/-!
Shallow embedding of the auction backend
(`src/online-aution-platform-main/backend/server.js`).

Times are modelled as integers (milliseconds since the epoch); the
JavaScript comparison `new Date() > new Date(item.closingTime)` becomes
`now > closingTime` on `Int`.  Bid amounts are integers.  JavaScript
falsiness of request-body fields is modelled with `Option` plus the
per-type falsy value (empty string for strings, `0` for numbers).
Each route handler becomes a pure function that also returns the number
of `save` calls it performed, so persistence effects are visible.
-/

namespace AuctionPlatform

/-- Embedding of `auctionItemSchema`: the persisted auction record. -/
structure AuctionItem where
  itemName : String
  description : String
  currentBid : Int
  highestBidder : String
  closingTime : Int
  isClosed : Bool
  startingBid : Int
  deriving Repr, DecidableEq

/-- Outcome of `POST /bid/:id`, as seen by the caller. -/
inductive BidOutcome where
  /-- 400 `Auction is closed` / `Auction closed`, carrying the winner. -/
  | auctionClosed (winner : String)
  /-- 400 `Bid must be higher than current bid`, carrying the current bid. -/
  | bidTooLow (currentBid : Int)
  /-- 200 `Bid successful`, carrying the updated item and the bid. -/
  | bidAccepted (item : AuctionItem) (yourBid : Int)
  deriving Repr, DecidableEq

/-- The effective open/closed state the handlers compute: the stored flag,
or expiry by the strict comparison `new Date() > new Date(closingTime)`. -/
def effectiveClosed (item : AuctionItem) (now : Int) : Bool :=
  item.isClosed || decide (now > item.closingTime)

/-- Embedding of the `POST /bid/:id` handler body after the `findById`
succeeded.  Returns the outcome, the resulting stored record, and how many
times `item.save()` ran. -/
def placeBid (item : AuctionItem) (bidder : String) (amount : Int)
    (now : Int) : BidOutcome × AuctionItem × Nat :=
  if item.isClosed then
    (.auctionClosed item.highestBidder, item, 0)
  else if now > item.closingTime then
    let closed := { item with isClosed := true }
    (.auctionClosed closed.highestBidder, closed, 1)
  else if amount ≤ item.currentBid then
    (.bidTooLow item.currentBid, item, 0)
  else
    let updated := { item with currentBid := amount, highestBidder := bidder }
    (.bidAccepted updated amount, updated, 1)

/-- Embedding of the `GET /auctions/:id` handler body after `findById`
succeeded: lazily persists the closing transition, then returns the
(possibly updated) record together with the number of `save` calls. -/
def view (item : AuctionItem) (now : Int) : AuctionItem × Nat :=
  if !item.isClosed && decide (now > item.closingTime) then
    ({ item with isClosed := true }, 1)
  else
    (item, 0)

/-- Result of `POST /auction`. -/
inductive CreateResult where
  /-- 400 `All fields are required`. -/
  | invalidInput
  /-- 201 `Auction item created`. -/
  | created (item : AuctionItem)
  deriving Repr, DecidableEq

/-- Embedding of the `POST /auction` handler: the guard
`if (!itemName || !description || !startingBid || !closingTime)` rejects
when any field is absent or falsy (empty string, zero); otherwise a
record is created with `currentBid = startingBid`,
`startingBid = startingBid`, `highestBidder = ''` and the schema default
`isClosed = false`. -/
def createAuction (itemName description : Option String)
    (startingBid closingTime : Option Int) : CreateResult :=
  match itemName, description, startingBid, closingTime with
  | some nm, some ds, some sb, some ct =>
      if nm = "" ∨ ds = "" ∨ sb = 0 ∨ ct = 0 then
        .invalidInput
      else
        .created { itemName := nm, description := ds, currentBid := sb,
                   highestBidder := "", closingTime := ct, isClosed := false,
                   startingBid := sb }
  | _, _, _, _ => .invalidInput

/-- One engine operation on a stored auction record. -/
inductive Op where
  | view (now : Int)
  | placeBid (bidder : String) (amount : Int) (now : Int)
  deriving Repr, DecidableEq

/-- The stored record after one engine operation. -/
def applyOp (item : AuctionItem) : Op → AuctionItem
  | .view now => (view item now).1
  | .placeBid bidder amount now => (placeBid item bidder amount now).2.1

/-- The stored record after a finite sequence of engine operations. -/
def applyOps (item : AuctionItem) (ops : List Op) : AuctionItem :=
  ops.foldl applyOp item

/-- Embedding of the `userSchema` document. -/
structure User where
  username : String
  password : String
  deriving Repr, DecidableEq

/-- `User.findOne({ username })` over a list-modelled credential store. -/
def findByUsername (store : List User) (username : String) : Option User :=
  store.find? (fun u => u.username == username)

/-- Result of `POST /signup`. -/
inductive SignupResult where
  /-- 400 `Username and password required`. -/
  | invalidInput
  /-- 400 `Username already exists`. -/
  | conflict
  /-- 201 `User registered successfully`. -/
  | registered
  deriving Repr, DecidableEq

/-- Embedding of the `POST /signup` handler.  `hash` stands for the
external `bcrypt.hash` capability.  Returns the outcome and the resulting
credential store. -/
def signup (hash : String → String) (store : List User)
    (username password : Option String) : SignupResult × List User :=
  match username, password with
  | some u, some p =>
      if u = "" ∨ p = "" then
        (.invalidInput, store)
      else
        match findByUsername store u with
        | some _ => (.conflict, store)
        | none => (.registered, store ++ [{ username := u, password := hash p }])
  | _, _ => (.invalidInput, store)

/-- Result of `POST /signin`. -/
inductive SigninResult where
  /-- An HTTP failure response: status code and message. -/
  | failure (status : Nat) (message : String)
  /-- 200 `Signin successful`, carrying the signed token claims. -/
  | success (userId : String) (username : String)
  deriving Repr, DecidableEq

/-- Embedding of the `POST /signin` handler.  `verify` stands for the
external `bcrypt.compare` capability; a successful signin signs a token
over `{userId, username}` (the user id is modelled by the username key,
ids being opaque). -/
def signin (verify : String → String → Bool) (store : List User)
    (username password : String) : SigninResult :=
  match findByUsername store username with
  | none => .failure 400 "Invalid credentials"
  | some u =>
      if verify password u.password then
        .success u.username u.username
      else
        .failure 400 "Invalid credentials"

/-! ## Theorems -/

/-- C1: `placeBid` evaluates its checks in strict order: if the effective
state is `Closed` it returns `AuctionClosed` carrying the current
`highestBidder`, regardless of the amount; else if `amount ≤ currentBid`
it returns `BidTooLow` carrying the current bid and leaves the record
unchanged; else it sets `currentBid = amount` and
`highestBidder = bidder`, persists once, and returns `BidAccepted`
carrying the updated record. -/
theorem placeBid_check_order (item : AuctionItem) (bidder : String)
    (amount now : Int) :
    (effectiveClosed item now = true →
      (placeBid item bidder amount now).1 =
        .auctionClosed item.highestBidder) ∧
    (effectiveClosed item now = false → amount ≤ item.currentBid →
      placeBid item bidder amount now =
        (.bidTooLow item.currentBid, item, 0)) ∧
    (effectiveClosed item now = false → item.currentBid < amount →
      placeBid item bidder amount now =
        (.bidAccepted
          { item with currentBid := amount, highestBidder := bidder } amount,
         { item with currentBid := amount, highestBidder := bidder }, 1)) := by
  unfold placeBid effectiveClosed
  refine ⟨?_, ?_, ?_⟩ <;> intro h
  · rcases Bool.or_eq_true_iff.mp h with hc | ht
    · simp [hc]
    · rcases hcl : item.isClosed with _ | _
      · simp [hcl, of_decide_eq_true ht]
      · simp [hcl]
  · intro hle
    rw [Bool.or_eq_false_iff] at h
    obtain ⟨hc, ht⟩ := h
    simp [hc, of_decide_eq_false ht, hle, Int.not_lt.mpr hle]
  · intro hlt
    rw [Bool.or_eq_false_iff] at h
    obtain ⟨hc, ht⟩ := h
    simp [hc, of_decide_eq_false ht, Int.not_le.mpr hlt]

/-- Witness for C1: each branch exercised at concrete inputs. -/
theorem placeBid_check_order_witness :
    (placeBid { itemName := "tv", description := "d", currentBid := 10,
                highestBidder := "alice", closingTime := 5, isClosed := true,
                startingBid := 10 } "bob" 999 3).1 =
      .auctionClosed "alice" ∧
    placeBid { itemName := "tv", description := "d", currentBid := 10,
               highestBidder := "alice", closingTime := 5, isClosed := false,
               startingBid := 10 } "bob" 10 3 =
      (.bidTooLow 10,
       { itemName := "tv", description := "d", currentBid := 10,
         highestBidder := "alice", closingTime := 5, isClosed := false,
         startingBid := 10 }, 0) ∧
    placeBid { itemName := "tv", description := "d", currentBid := 10,
               highestBidder := "alice", closingTime := 5, isClosed := false,
               startingBid := 10 } "bob" 11 3 =
      (.bidAccepted
        { itemName := "tv", description := "d", currentBid := 11,
          highestBidder := "bob", closingTime := 5, isClosed := false,
          startingBid := 10 } 11,
       { itemName := "tv", description := "d", currentBid := 11,
         highestBidder := "bob", closingTime := 5, isClosed := false,
         startingBid := 10 }, 1) :=
  ⟨(placeBid_check_order _ "bob" 999 3).1 (by decide),
   (placeBid_check_order _ "bob" 10 3).2.1 (by decide) (by decide),
   (placeBid_check_order _ "bob" 11 3).2.2 (by decide) (by decide)⟩

/-- C4: on an open, non-expired record, a bid exactly equal to the current
bid is rejected with `BidTooLow` and is never `BidAccepted`; the record
is unchanged. -/
theorem placeBid_tie_rejected (item : AuctionItem) (bidder : String)
    (now : Int) (hopen : item.isClosed = false)
    (hexp : ¬ now > item.closingTime) :
    placeBid item bidder item.currentBid now =
      (.bidTooLow item.currentBid, item, 0) := by
  unfold placeBid
  simp [hopen, hexp]

/-- Witness for C4: an equal bid on a live auction returns `BidTooLow`. -/
theorem placeBid_tie_rejected_witness :
    placeBid { itemName := "tv", description := "d", currentBid := 100,
               highestBidder := "", closingTime := 50, isClosed := false,
               startingBid := 100 } "bob" 100 7 =
      (.bidTooLow 100,
       { itemName := "tv", description := "d", currentBid := 100,
         highestBidder := "", closingTime := 50, isClosed := false,
         startingBid := 100 }, 0) :=
  placeBid_tie_rejected _ "bob" 7 (by decide) (by decide)

/-- Counterexample to C2 as stated: at the boundary instant
`now == closingTime` (here both `5`), an open record is still treated as
open — `view` performs no write and leaves `isClosed = false`, and a
higher bid is accepted rather than rejected with `AuctionClosed` —
because the handlers compare with strict `>`. -/
theorem boundary_instant_still_open :
    view { itemName := "tv", description := "d", currentBid := 10,
           highestBidder := "", closingTime := 5, isClosed := false,
           startingBid := 10 } 5 =
      ({ itemName := "tv", description := "d", currentBid := 10,
         highestBidder := "", closingTime := 5, isClosed := false,
         startingBid := 10 }, 0) ∧
    (placeBid { itemName := "tv", description := "d", currentBid := 10,
                highestBidder := "", closingTime := 5, isClosed := false,
                startingBid := 10 } "bob" 11 5).1 =
      .bidAccepted { itemName := "tv", description := "d", currentBid := 11,
                     highestBidder := "bob", closingTime := 5,
                     isClosed := false, startingBid := 10 } 11 ∧
    effectiveClosed { itemName := "tv", description := "d", currentBid := 10,
                      highestBidder := "", closingTime := 5, isClosed := false,
                      startingBid := 10 } 5 = false := by
  refine ⟨?_, ?_, ?_⟩ <;> rfl

/-- C2 (amended): for every stored record with `isClosed = false`, any
engine operation executed strictly after the closing time
(`now > closingTime`) observes effective state `Closed` and persists
`isClosed = true` with exactly one write; at the boundary instant
`now == closingTime` the record is still treated as open. -/
theorem lazy_close_after_deadline (item : AuctionItem) (now : Int)
    (hopen : item.isClosed = false) (hlate : now > item.closingTime) :
    effectiveClosed item now = true ∧
    view item now = ({ item with isClosed := true }, 1) ∧
    ∀ bidder amount,
      placeBid item bidder amount now =
        (.auctionClosed item.highestBidder, { item with isClosed := true }, 1) := by
  refine ⟨?_, ?_, ?_⟩
  · simp [effectiveClosed, hlate]
  · simp [view, hopen, hlate]
  · intro bidder amount
    simp [placeBid, hopen, hlate]

/-- Witness for C2 (amended): one tick past the deadline, both `view`
and `placeBid` close the record. -/
theorem lazy_close_after_deadline_witness :
    effectiveClosed { itemName := "tv", description := "d", currentBid := 10,
                      highestBidder := "alice", closingTime := 5,
                      isClosed := false, startingBid := 10 } 6 = true ∧
    view { itemName := "tv", description := "d", currentBid := 10,
           highestBidder := "alice", closingTime := 5, isClosed := false,
           startingBid := 10 } 6 =
      ({ itemName := "tv", description := "d", currentBid := 10,
         highestBidder := "alice", closingTime := 5, isClosed := true,
         startingBid := 10 }, 1) ∧
    ∀ bidder amount,
      placeBid { itemName := "tv", description := "d", currentBid := 10,
                 highestBidder := "alice", closingTime := 5, isClosed := false,
                 startingBid := 10 } bidder amount 6 =
        (.auctionClosed "alice",
         { itemName := "tv", description := "d", currentBid := 10,
           highestBidder := "alice", closingTime := 5, isClosed := true,
           startingBid := 10 }, 1) :=
  lazy_close_after_deadline _ 6 (by decide) (by decide)

/-- C3: viewing an expired-but-not-yet-marked record persists the closing
transition (one write of `isClosed = true`) and returns the updated
record; the view is not read-only in this case. -/
theorem view_persists_close (item : AuctionItem) (now : Int)
    (hopen : item.isClosed = false) (hlate : now > item.closingTime) :
    view item now = ({ item with isClosed := true }, 1) ∧
    (view item now).1.isClosed = true := by
  constructor
  · simp [view, hopen, hlate]
  · simp [view, hopen, hlate]

/-- Witness for C3: an already-expired open record flips to closed on
view, with one write. -/
theorem view_persists_close_witness :
    view { itemName := "tv", description := "d", currentBid := 10,
           highestBidder := "", closingTime := 5, isClosed := false,
           startingBid := 10 } 9 =
      ({ itemName := "tv", description := "d", currentBid := 10,
         highestBidder := "", closingTime := 5, isClosed := true,
         startingBid := 10 }, 1) ∧
    (view { itemName := "tv", description := "d", currentBid := 10,
            highestBidder := "", closingTime := 5, isClosed := false,
            startingBid := 10 } 9).1.isClosed = true :=
  view_persists_close _ 9 (by decide) (by decide)

/-- No engine operation changes `startingBid`. -/
theorem applyOp_startingBid (item : AuctionItem) (op : Op) :
    (applyOp item op).startingBid = item.startingBid := by
  cases op with
  | view now =>
      simp only [applyOp, view]
      split <;> rfl
  | placeBid bidder amount now =>
      simp only [applyOp, placeBid]
      split
      · rfl
      · split
        · rfl
        · split <;> rfl

/-- `currentBid` never decreases under an engine operation. -/
theorem applyOp_currentBid_mono (item : AuctionItem) (op : Op) :
    item.currentBid ≤ (applyOp item op).currentBid := by
  cases op with
  | view now =>
      simp only [applyOp, view]
      split <;> simp
  | placeBid bidder amount now =>
      simp only [applyOp, placeBid]
      split_ifs with h1 h2 h3
      · simp
      · simp
      · simp
      · simpa using le_of_lt (Int.not_le.mp h3)

/-- `currentBid ≥ startingBid` is preserved by any sequence of engine
operations. -/
theorem applyOps_currentBid_ge (item : AuctionItem)
    (h : item.startingBid ≤ item.currentBid) (ops : List Op) :
    (applyOps item ops).startingBid ≤ (applyOps item ops).currentBid := by
  induction ops generalizing item with
  | nil => exact h
  | cons op rest ih =>
      show (applyOps (applyOp item op) rest).startingBid ≤
        (applyOps (applyOp item op) rest).currentBid
      exact ih (applyOp item op)
        ((applyOp_startingBid item op).trans_le
          (h.trans (applyOp_currentBid_mono item op)))

/-- C5: every record produced by `createAuction`, after any finite
sequence of engine operations, satisfies `currentBid ≥ startingBid`. -/
theorem currentBid_ge_startingBid (itemName description : Option String)
    (startingBid closingTime : Option Int) (item : AuctionItem)
    (hc : createAuction itemName description startingBid closingTime =
      .created item) (ops : List Op) :
    (applyOps item ops).startingBid ≤ (applyOps item ops).currentBid := by
  apply applyOps_currentBid_ge
  match itemName, description, startingBid, closingTime with
  | some nm, some ds, some sb, some ct =>
      rw [createAuction] at hc
      split at hc
      · exact absurd hc (by simp)
      · cases hc
        exact le_refl _

/-- Witness for C5: a freshly created auction bid up twice keeps
`currentBid ≥ startingBid`. -/
theorem currentBid_ge_startingBid_witness :
    createAuction (some "tv") (some "d") (some 100) (some 50) =
      .created { itemName := "tv", description := "d", currentBid := 100,
                 highestBidder := "", closingTime := 50, isClosed := false,
                 startingBid := 100 } ∧
    (applyOps { itemName := "tv", description := "d", currentBid := 100,
                highestBidder := "", closingTime := 50, isClosed := false,
                startingBid := 100 }
      [.placeBid "bob" 150 7, .view 8, .placeBid "ann" 120 9]).startingBid ≤
    (applyOps { itemName := "tv", description := "d", currentBid := 100,
                highestBidder := "", closingTime := 50, isClosed := false,
                startingBid := 100 }
      [.placeBid "bob" 150 7, .view 8, .placeBid "ann" 120 9]).currentBid :=
  ⟨by rfl,
   currentBid_ge_startingBid (some "tv") (some "d") (some 100) (some 50) _
     (by rfl) [.placeBid "bob" 150 7, .view 8, .placeBid "ann" 120 9]⟩

/-- Once `isClosed = true`, it stays true after any engine operation. -/
theorem applyOp_isClosed_mono (item : AuctionItem) (op : Op)
    (h : item.isClosed = true) : (applyOp item op).isClosed = true := by
  cases op with
  | view now => simp [applyOp, view, h]
  | placeBid bidder amount now => simp [applyOp, placeBid, h]

/-- C6: `isClosed` is monotonic and `Closed` is terminal: starting from a
record with `isClosed = true`, every sequence of engine operations keeps
`isClosed = true`, every bid on any reachable record yields
`AuctionClosed` with the stored record unchanged, and no bid on any
reachable record is ever accepted. -/
theorem isClosed_terminal (item : AuctionItem) (h : item.isClosed = true) :
    (∀ ops : List Op, (applyOps item ops).isClosed = true) ∧
    (∀ bidder amount now,
      placeBid item bidder amount now =
        (.auctionClosed item.highestBidder, item, 0)) ∧
    (∀ ops bidder amount now, ∀ it yb,
      (placeBid (applyOps item ops) bidder amount now).1 ≠
        .bidAccepted it yb) := by
  have hall : ∀ ops : List Op, (applyOps item ops).isClosed = true := by
    intro ops
    induction ops generalizing item with
    | nil => exact h
    | cons op rest ih =>
        exact ih (applyOp item op) (applyOp_isClosed_mono item op h)
  refine ⟨hall, ?_, ?_⟩
  · intro bidder amount now
    simp [placeBid, h]
  · intro ops bidder amount now it yb
    simp [placeBid, hall ops]

/-- Witness for C6: a closed record stays closed through a sequence of
operations, and a high bid on it is rejected. -/
theorem isClosed_terminal_witness :
    (applyOps { itemName := "tv", description := "d", currentBid := 10,
                highestBidder := "alice", closingTime := 50, isClosed := true,
                startingBid := 10 }
      [.view 7, .placeBid "bob" 999 8]).isClosed = true ∧
    placeBid { itemName := "tv", description := "d", currentBid := 10,
               highestBidder := "alice", closingTime := 50, isClosed := true,
               startingBid := 10 } "bob" 999 8 =
      (.auctionClosed "alice",
       { itemName := "tv", description := "d", currentBid := 10,
         highestBidder := "alice", closingTime := 50, isClosed := true,
         startingBid := 10 }, 0) :=
  ⟨(isClosed_terminal _ (by decide)).1 [.view 7, .placeBid "bob" 999 8],
   (isClosed_terminal _ (by decide)).2.1 "bob" 999 8⟩

/-- C7: a `placeBid` call performs at most one write; a write happens
only on the dirty-close `AuctionClosed` outcome or the `BidAccepted`
outcome; on an already-closed record and on the `BidTooLow` outcome the
stored record is returned unchanged with zero writes. -/
theorem placeBid_write_frame (item : AuctionItem) (bidder : String)
    (amount now : Int) :
    (placeBid item bidder amount now).2.2 ≤ 1 ∧
    ((placeBid item bidder amount now).2.2 = 1 →
      ((placeBid item bidder amount now).1 =
          .auctionClosed item.highestBidder ∧
        item.isClosed = false ∧ now > item.closingTime) ∨
      (placeBid item bidder amount now).1 =
        .bidAccepted (placeBid item bidder amount now).2.1 amount) ∧
    (item.isClosed = true →
      (placeBid item bidder amount now).2.1 = item ∧
      (placeBid item bidder amount now).2.2 = 0) ∧
    (∀ cb, (placeBid item bidder amount now).1 = .bidTooLow cb →
      (placeBid item bidder amount now).2.1 = item ∧
      (placeBid item bidder amount now).2.2 = 0) := by
  unfold placeBid
  split_ifs with h1 h2 h3
  · simp [h1]
  · rw [Bool.not_eq_true] at h1
    simp [h1, h2]
  · simp
  · rw [Bool.not_eq_true] at h1
    exact ⟨by simp, fun _ => Or.inr rfl, fun hc => absurd hc (by simp [h1]),
      by simp⟩

/-- Witness for C7: frame conditions checked on a closed record, a
too-low bid, and an accepted bid. -/
theorem placeBid_write_frame_witness :
    (placeBid { itemName := "tv", description := "d", currentBid := 10,
                highestBidder := "alice", closingTime := 50, isClosed := true,
                startingBid := 10 } "bob" 999 3).2.1 =
      { itemName := "tv", description := "d", currentBid := 10,
        highestBidder := "alice", closingTime := 50, isClosed := true,
        startingBid := 10 } ∧
    (placeBid { itemName := "tv", description := "d", currentBid := 10,
                highestBidder := "", closingTime := 50, isClosed := false,
                startingBid := 10 } "bob" 10 3).2.2 = 0 ∧
    (((placeBid { itemName := "tv", description := "d", currentBid := 10,
                  highestBidder := "", closingTime := 50, isClosed := false,
                  startingBid := 10 } "bob" 11 3).1 =
        .auctionClosed "" ∧ False ∨ True) ∨
      (placeBid { itemName := "tv", description := "d", currentBid := 10,
                  highestBidder := "", closingTime := 50, isClosed := false,
                  startingBid := 10 } "bob" 11 3).1 =
        .bidAccepted (placeBid { itemName := "tv", description := "d",
                                 currentBid := 10, highestBidder := "",
                                 closingTime := 50, isClosed := false,
                                 startingBid := 10 } "bob" 11 3).2.1 11) :=
  ⟨((placeBid_write_frame _ "bob" 999 3).2.2.1 (by decide)).1,
   ((placeBid_write_frame _ "bob" 10 3).2.2.2 10 (by rfl)).2,
   Or.inr (((placeBid_write_frame _ "bob" 11 3).2.1 (by rfl)).resolve_left
     (by decide))⟩

/-- Counterexample to C8 as stated: `startingBid = 0` is present and
numeric, yet `createAuction` rejects it with `InvalidInput` (the guard
`!startingBid` treats `0` as falsy), instead of producing a record with
`currentBid = 0`. -/
theorem createAuction_zero_rejected :
    createAuction (some "tv") (some "desc") (some 0) (some 5) =
      CreateResult.invalidInput := by rfl

/-- C8 (amended): `createAuction` rejects with `InvalidInput` exactly
when some field is absent or falsy — an empty string for `itemName` or
`description`, `0` for `startingBid` or `closingTime` — and otherwise
(all fields present and truthy, so in particular `startingBid ≠ 0`)
produces a record with `currentBid = startingBid`, `isClosed = false`
and `highestBidder` empty. -/
theorem createAuction_validation (itemName description : Option String)
    (startingBid closingTime : Option Int) :
    (createAuction itemName description startingBid closingTime =
        .invalidInput ↔
      itemName.getD "" = "" ∨ description.getD "" = "" ∨
      startingBid.getD 0 = 0 ∨ closingTime.getD 0 = 0) ∧
    (∀ (n d : String) (s c : Int), itemName = some n → description = some d →
      startingBid = some s → closingTime = some c →
      n ≠ "" → d ≠ "" → s ≠ 0 → c ≠ 0 →
      createAuction itemName description startingBid closingTime =
        .created { itemName := n, description := d, currentBid := s,
                   highestBidder := "", closingTime := c, isClosed := false,
                   startingBid := s }) := by
  constructor
  · rcases itemName with _ | n <;> rcases description with _ | d <;>
      rcases startingBid with _ | s <;> rcases closingTime with _ | c <;>
      simp [createAuction]
    tauto
  · intro n d s c hn hd hs hc hn1 hd1 hs1 hc1
    subst hn; subst hd; subst hs; subst hc
    simp [createAuction, hn1, hd1, hs1, hc1]

/-- Witness for C8 (amended): a truthy input creates the record; the
characterization holds at a concrete input. -/
theorem createAuction_validation_witness :
    (createAuction (some "tv") (some "d") (some 100) (some 5) =
        .invalidInput ↔
      (some "tv").getD "" = "" ∨ (some "d").getD "" = "" ∨
      (some (100 : Int)).getD 0 = 0 ∨ (some (5 : Int)).getD 0 = 0) ∧
    createAuction (some "tv") (some "d") (some 100) (some 5) =
      .created { itemName := "tv", description := "d", currentBid := 100,
                 highestBidder := "", closingTime := 5, isClosed := false,
                 startingBid := 100 } :=
  ⟨(createAuction_validation (some "tv") (some "d") (some 100) (some 5)).1,
   (createAuction_validation (some "tv") (some "d") (some 100) (some 5)).2
     "tv" "d" 100 5 rfl rfl rfl rfl (by decide) (by decide) (by decide)
     (by decide)⟩

/-- C9: a signup whose username already names a stored user returns
`Conflict` and leaves the credential store unchanged — the existence
check runs before any record is created. -/
theorem signup_conflict (hash : String → String) (store : List User)
    (u p : String) (hu : u ≠ "") (hp : p ≠ "")
    (hex : ∃ x ∈ store, x.username = u) :
    signup hash store (some u) (some p) = (.conflict, store) := by
  have hcond : ¬(u = "" ∨ p = "") := by
    rintro (h | h)
    · exact hu h
    · exact hp h
  rcases hfind : findByUsername store u with _ | x
  · exfalso
    rw [findByUsername, List.find?_eq_none] at hfind
    obtain ⟨y, hy, hyu⟩ := hex
    exact hfind y hy (by simp [hyu])
  · simp [signup, hcond, hfind]

/-- Witness for C9: signing up `alice` twice yields `Conflict` with the
store unchanged. -/
theorem signup_conflict_witness :
    signup (fun s => s) [{ username := "alice", password := "h" }]
      (some "alice") (some "pw") =
      (.conflict, [{ username := "alice", password := "h" }]) :=
  signup_conflict (fun s => s) [{ username := "alice", password := "h" }]
    "alice" "pw" (by decide) (by decide)
    ⟨{ username := "alice", password := "h" }, by simp, rfl⟩

/-- C10: the signin failure outcome is identical — status 400, message
`Invalid credentials` — whether the username is absent from the store or
the password fails verification; the two causes are indistinguishable
from the response. -/
theorem signin_uniform_failure (verify : String → String → Bool)
    (store : List User) (username password : String) :
    (findByUsername store username = none →
      signin verify store username password =
        .failure 400 "Invalid credentials") ∧
    (∀ u, findByUsername store username = some u →
      verify password u.password = false →
      signin verify store username password =
        .failure 400 "Invalid credentials") := by
  constructor
  · intro h
    simp [signin, h]
  · intro u h hv
    simp [signin, h, hv]

/-- Witness for C10: an unknown user and a wrong password produce the
same failure response. -/
theorem signin_uniform_failure_witness :
    signin (fun p d => p == d) [{ username := "alice", password := "secret" }]
      "bob" "x" = .failure 400 "Invalid credentials" ∧
    signin (fun p d => p == d) [{ username := "alice", password := "secret" }]
      "alice" "x" = .failure 400 "Invalid credentials" :=
  ⟨(signin_uniform_failure (fun p d => p == d)
      [{ username := "alice", password := "secret" }] "bob" "x").1 (by rfl),
   (signin_uniform_failure (fun p d => p == d)
      [{ username := "alice", password := "secret" }] "alice" "x").2
     { username := "alice", password := "secret" } (by rfl) (by rfl)⟩

end AuctionPlatform
